import Mathlib

/-!
Verification of the `IntifaceState` protocol client (claudejob repository).

This file gives a shallow embedding of the client found in the repository's
Intiface service module: device-descriptor parsing, actuation command
construction, the battery query, the presence state machine with its
work-signal bridge, frame decoding/routing, and the connect sequence.
Numeric strengths are modelled as rationals (the source uses JS numbers for
fractions in [0,1]); timestamps are natural numbers.  Asynchronous control
flow (the connect attempt, the battery send) is modelled by passing the
outcome of each awaited event explicitly.
-/

/-! ### Device data model (mirrors `IntifaceDevice` / `DeviceMessage`) -/

/-- One capability record: `{ motors, steps }` in the source. -/
structure MotorSpec where
  motors : Nat
  steps : List Nat
deriving DecidableEq, Repr

/-- The `capabilities` record of an `IntifaceDevice`; absent fields are `undefined`
in the source, modelled as `none`. -/
structure Capabilities where
  vibrate : Option MotorSpec
  rotate : Option MotorSpec
  linear : Option MotorSpec
deriving DecidableEq, Repr

/-- `IntifaceDevice` from the source. -/
structure IntifaceDevice where
  index : Nat
  name : String
  capabilities : Capabilities
deriving DecidableEq, Repr

/-- An entry of `DeviceMessages.ScalarCmd`: `{ StepCount, ActuatorType }`. -/
structure ScalarCmdEntry where
  StepCount : Nat
  ActuatorType : String
deriving DecidableEq, Repr

/-- An entry of `DeviceMessages.RotateCmd` or `DeviceMessages.LinearCmd`:
`{ StepCount }`. -/
structure StepEntry where
  StepCount : Nat
deriving DecidableEq, Repr

/-- The `DeviceMessages` record of a raw device message; each command array is
optional (`undefined` when the device lacks the message type). -/
structure DeviceCmds where
  ScalarCmd : Option (List ScalarCmdEntry)
  RotateCmd : Option (List StepEntry)
  LinearCmd : Option (List StepEntry)
deriving DecidableEq, Repr

/-- `DeviceMessage` from the source: a raw device payload. -/
structure DeviceMessage where
  DeviceIndex : Nat
  DeviceName : String
  DeviceMessages : DeviceCmds
deriving DecidableEq, Repr

/-! ### `parseDevice` -/

/-- `IntifaceState.parseDevice`.  The source computes
`vibrate = d.DeviceMessages.ScalarCmd?.filter(s => s.ActuatorType === "Vibrate")`
and then `vibrate?.length ? {motors, steps} : undefined` (JS truthiness: both a
missing array and a zero length yield `undefined`), and the same
length-truthiness test for `RotateCmd` and `LinearCmd` taken unfiltered. -/
def parseDevice (d : DeviceMessage) : IntifaceDevice :=
  let vibrate := d.DeviceMessages.ScalarCmd.map
    (fun l => l.filter (fun s => s.ActuatorType == "Vibrate"))
  let rotate := d.DeviceMessages.RotateCmd
  let linear := d.DeviceMessages.LinearCmd
  { index := d.DeviceIndex
    name := d.DeviceName
    capabilities :=
      { vibrate :=
          match vibrate with
          | some l =>
            if l.length != 0 then
              some { motors := l.length, steps := l.map (fun v => v.StepCount) }
            else none
          | none => none
        rotate :=
          match rotate with
          | some l =>
            if l.length != 0 then
              some { motors := l.length, steps := l.map (fun r => r.StepCount) }
            else none
          | none => none
        linear :=
          match linear with
          | some l =>
            if l.length != 0 then
              some { motors := l.length, steps := l.map (fun v => v.StepCount) }
            else none
          | none => none } }

/-- The vibration actuator group of a raw device message: the scalar-command
entries whose actuator type is `"Vibrate"` (empty when the array is absent). -/
def vibrateGroup (d : DeviceMessage) : List ScalarCmdEntry :=
  (d.DeviceMessages.ScalarCmd.getD []).filter (fun s => s.ActuatorType == "Vibrate")

/-- The rotation actuator group (empty when the array is absent). -/
def rotateGroup (d : DeviceMessage) : List StepEntry :=
  d.DeviceMessages.RotateCmd.getD []

/-- The linear actuator group (empty when the array is absent). -/
def linearGroup (d : DeviceMessage) : List StepEntry :=
  d.DeviceMessages.LinearCmd.getD []

/-- Modelled from the spec (§4.5), for comparison with `parseDevice`: for a
non-empty actuator group the capability records the motor count (= group
length) and the ordered step counts; a zero-entry capability is omitted
entirely. -/
def specCapability (stepCounts : List Nat) : Option MotorSpec :=
  if stepCounts = [] then none
  else some { motors := stepCounts.length, steps := stepCounts }

/-! ### Device registry as an association list (JS `Map<number, IntifaceDevice>`) -/

/-- `Map.get`: look up a device by index. -/
def mapGet (m : List (Nat × IntifaceDevice)) (k : Nat) : Option IntifaceDevice :=
  match m with
  | [] => none
  | (k', v) :: rest => if k' = k then some v else mapGet rest k

/-- `Map.set`: replace in place if the key exists, else append. -/
def mapSet (m : List (Nat × IntifaceDevice)) (k : Nat) (v : IntifaceDevice) :
    List (Nat × IntifaceDevice) :=
  match m with
  | [] => [(k, v)]
  | (k', v') :: rest =>
    if k' = k then (k, v) :: rest else (k', v') :: mapSet rest k v

/-- `Map.delete`: remove the entry with the given key, if present. -/
def mapDelete (m : List (Nat × IntifaceDevice)) (k : Nat) :
    List (Nat × IntifaceDevice) :=
  m.filter (fun p => p.1 != k)

/-! ### Actuation commands -/

/-- `Math.max(0, Math.min(1, strength))` from `vibrate`/`rotate`/`linear`. -/
def clamp (s : ℚ) : ℚ := max 0 (min 1 s)

/-- One element of the `Scalars` array of a `ScalarCmd`. -/
structure ScalarEntry where
  Index : Nat
  Scalar : ℚ
  ActuatorType : String
deriving DecidableEq, Repr

/-- The `ScalarCmd` payload sent by `vibrate`. -/
structure ScalarCmdMsg where
  DeviceIndex : Nat
  Scalars : List ScalarEntry
deriving DecidableEq, Repr

/-- `IntifaceState.vibrate`.  `ensureResult` is the outcome of the awaited
`ensureConnected()` call (its rejection propagates).  On success the function
returns the `ScalarCmd` payload passed to `send`; device-lookup and
capability failures are thrown (`Except.error`), mirroring the source's
`throw new Error(...)`. -/
def vibrate (ensureResult : Except String Unit)
    (devices : List (Nat × IntifaceDevice)) (deviceIndex : Nat)
    (strength : ℚ) (motor : Option Nat) : Except String ScalarCmdMsg :=
  match ensureResult with
  | .error e => .error e
  | .ok _ =>
    match mapGet devices deviceIndex with
    | none => .error ("Device " ++ toString deviceIndex ++ " not found")
    | some device =>
      match device.capabilities.vibrate with
      | none => .error ("Device " ++ toString deviceIndex ++ " does not support vibration")
      | some cap =>
        let clampedStrength := clamp strength
        let motorCount := cap.motors
        .ok { DeviceIndex := deviceIndex
              Scalars := (List.range motorCount).map (fun i =>
                { Index := i
                  Scalar := if motor = none ∨ motor = some i then clampedStrength else 0
                  ActuatorType := "Vibrate" }) }

/-- `IntifaceState.getBattery`.  `ensureResult` is the outcome of
`ensureConnected()` (propagated), `sendResult` the settled outcome of the
awaited `BatteryLevelCmd` send (the reply's `BatteryLevel`, or a rejection).
The `try`/`catch` around the send converts any send failure into `null`
(`none`); the device-existence check sits before the `try` and throws. -/
def getBattery (ensureResult : Except String Unit)
    (devices : List (Nat × IntifaceDevice)) (deviceIndex : Nat)
    (sendResult : Except String ℚ) : Except String (Option ℚ) :=
  match ensureResult with
  | .error e => .error e
  | .ok _ =>
    match mapGet devices deviceIndex with
    | none => .error ("Device " ++ toString deviceIndex ++ " not found")
    | some _ =>
      match sendResult with
      | .ok lvl => .ok (some lvl)
      | .error _ => .ok none

/-! ### Presence state machine (`setState`, `start`, `toggle`, `restore`,
and the work-signal bridge `onSessionStateMessage`) -/

/-- `DEFAULT_STRENGTH = 0.15` in the source. -/
def DEFAULT_STRENGTH : ℚ := 15 / 100

/-- The presence fields of `IntifaceState`, plus `lastWorkingCount`.
`since` holds the activation timestamp (an ISO string in the source,
modelled as a numeric time). -/
structure PresenceState where
  active : Bool
  device : Nat
  strength : ℚ
  since : Option Nat
  lastWorkingCount : Nat
deriving DecidableEq, Repr

/-- The constructor's presence initialisation: inactive, device 0,
strength 0.15, no timestamp, working count 0. -/
def initPresence : PresenceState :=
  { active := false, device := 0, strength := DEFAULT_STRENGTH
    since := none, lastWorkingCount := 0 }

/-- An actuation-layer call attempted by the presence controller. -/
inductive Actuation where
  | startVibe (device : Nat) (strength : ℚ)
  | stopVibe (device : Nat)
deriving DecidableEq, Repr

/-- `IntifaceState.setState(active, device, strength)` at time `now`.
Returns the committed state and the actuation calls attempted (errors from
those calls are caught and logged, so they never affect the state).  Fields
`device` and `strength` are overwritten unconditionally; `since` becomes the
current time only on an idle-to-active transition, is preserved while already
active, and is cleared on any transition to inactive; the actuation layer is
invoked only when the active flag actually changes. -/
def setState (now : Nat) (s : PresenceState) (active : Bool) (device : Nat)
    (strength : ℚ) : PresenceState × List Actuation :=
  let wasActive := s.active
  let isChanging := active != wasActive
  let since : Option Nat :=
    if active then (if wasActive then s.since else some now) else none
  let s' : PresenceState :=
    { s with active := active, device := device, strength := strength, since := since }
  let acts : List Actuation :=
    if isChanging then
      if active then [Actuation.startVibe device strength]
      else [Actuation.stopVibe device]
    else []
  (s', acts)

/-- `IntifaceState.onSessionStateMessage` for a `"state"` message carrying
`working`: an edge is detected by comparing `working > 0` against
`lastWorkingCount > 0`; on a rising edge `vibrate(this.device, this.strength)`
is attempted, on a falling edge `stop(this.device)` (failures are caught);
finally `lastWorkingCount` is overwritten. -/
def onSessionStateMessage (s : PresenceState) (working : Nat) :
    PresenceState × List Actuation :=
  let workingChanged := working != s.lastWorkingCount
  let isNowWorking := decide (working > 0)
  let wasWorking := decide (s.lastWorkingCount > 0)
  let acts : List Actuation :=
    if workingChanged && (isNowWorking != wasWorking) then
      if isNowWorking then [Actuation.startVibe s.device s.strength]
      else [Actuation.stopVibe s.device]
    else []
  ({ s with lastWorkingCount := working }, acts)

/-- The operations that mutate the presence state. -/
inductive Op where
  | setOp (active : Bool) (device : Nat) (strength : ℚ)
  | startOp (device : Nat) (strength : ℚ)
  | toggleOp (device : Nat) (strength : ℚ)
  | restoreOp
  | workSignal (working : Nat)
deriving DecidableEq, Repr

/-- One presence operation at time `now`.  `start`, `toggle` and `restore`
are the source's thin wrappers around `setState`; `restore` passes the
current `active`/`device`/`strength` back in. -/
def stepOp (now : Nat) (op : Op) (s : PresenceState) :
    PresenceState × List Actuation :=
  match op with
  | .setOp a d st => setState now s a d st
  | .startOp d st => setState now s true d st
  | .toggleOp d st => setState now s (!s.active) d st
  | .restoreOp => setState now s s.active s.device s.strength
  | .workSignal w => onSessionStateMessage s w

/-- Run a list of timestamped presence operations from a given state. -/
def runOpsFrom (s : PresenceState) : List (Nat × Op) → PresenceState
  | [] => s
  | (now, op) :: rest => runOpsFrom (stepOp now op s).1 rest

/-- Run a list of timestamped presence operations from the initial state. -/
def runOps (ops : List (Nat × Op)) : PresenceState :=
  runOpsFrom initPresence ops

/-- `IntifaceState.restore` at time `now`. -/
def restore (now : Nat) (s : PresenceState) : PresenceState × List Actuation :=
  setState now s s.active s.device s.strength

/-- Feed a list of working counts to the work-signal bridge, recording each
attempted actuation together with the list index of the count that caused
it. -/
def runWorkSignalsFrom (s : PresenceState) (i : Nat) :
    List Nat → PresenceState × List (Nat × Actuation)
  | [] => (s, [])
  | w :: rest =>
    let (s', acts) := onSessionStateMessage s w
    let (s'', transitions) := runWorkSignalsFrom s' (i + 1) rest
    (s'', acts.map (fun a => (i, a)) ++ transitions)

/-- Feed a list of working counts to the work-signal bridge starting at
index 0. -/
def runWorkSignals (s : PresenceState) (counts : List Nat) :
    PresenceState × List (Nat × Actuation) :=
  runWorkSignalsFrom s 0 counts

/-! ### The connect attempt (`IntifaceState.connect`)

The attempt is modelled as a function of a scenario describing when the
socket's `open`/`error` events fire and how the three setup sends settle.
In the source a 10-second timer is armed when the socket is created; the
`onopen` handler calls `clearTimeout` first and only then awaits the
handshake (`RequestServerInfo`), `RequestDeviceList` and `StartScanning`
sends, resolving after the third; `onerror` also clears the timer; if the
timer fires first the socket is force-closed and the attempt rejects with
`"Connection timeout"`. -/

deriving instance DecidableEq for Except

/-- How one connect attempt's environment behaves: the times (ms) at which
the socket's `open` and `error` events would fire (`none` = never), the
settled outcome of each of the three setup sends, and the absolute time at
which the setup sequence finishes. -/
structure ConnectScenario where
  openTime : Option Nat
  errorTime : Option Nat
  handshake : Except String Unit
  deviceList : Except String Unit
  scanStart : Except String Unit
  setupEndTime : Nat
deriving DecidableEq, Repr

/-- The final outcome of a connect attempt. -/
inductive ConnectOutcome where
  | success
  | failure (e : String)
deriving DecidableEq, Repr

/-- The first failing setup send, in the order the source awaits them:
handshake, then device list, then scan start. -/
def firstStepFailure (sc : ConnectScenario) : Option String :=
  match sc.handshake with
  | .error e => some e
  | .ok _ =>
    match sc.deviceList with
    | .error e => some e
    | .ok _ =>
      match sc.scanStart with
      | .error e => some e
      | .ok _ => none

/-- The `onopen` path: the timer has been cleared, so the attempt settles
when the setup sequence finishes — success after the scan-start
acknowledgement, otherwise the first failing step's error. -/
def openCase (sc : ConnectScenario) : ConnectOutcome × Nat × Bool :=
  match firstStepFailure sc with
  | some e => (.failure e, sc.setupEndTime, false)
  | none => (.success, sc.setupEndTime, false)

/-- One connect attempt: returns `(outcome, resolution time, force-closed)`.
The first of the three events — `open`, `error`, the 10000 ms timer — wins;
an event fires only if it occurs strictly before 10000 ms (and before the
other event); otherwise the timer force-closes the socket and the attempt
fails with `"Connection timeout"`. -/
def connectAttempt (sc : ConnectScenario) : ConnectOutcome × Nat × Bool :=
  match sc.openTime, sc.errorTime with
  | some tOpen, some tErr =>
    if tErr < tOpen then
      if tErr < 10000 then (.failure "WebSocket error", tErr, false)
      else (.failure "Connection timeout", 10000, true)
    else
      if tOpen < 10000 then openCase sc
      else (.failure "Connection timeout", 10000, true)
  | some tOpen, none =>
    if tOpen < 10000 then openCase sc
    else (.failure "Connection timeout", 10000, true)
  | none, some tErr =>
    if tErr < 10000 then (.failure "WebSocket error", tErr, false)
    else (.failure "Connection timeout", 10000, true)
  | none, none => (.failure "Connection timeout", 10000, true)

/-! ### Connect coalescing (`connect`'s entry checks)

`connect()` begins with two checks:
`if (this.ws && this.ws.readyState === WebSocket.OPEN) return;` and
`if (this.connectionPromise) return this.connectionPromise;`.
The phases below describe the client between those observable events:
`connectionPromise` is non-null from the moment an attempt starts until the
`onopen` handler nulls it after resolving/rejecting, and the socket is OPEN
from the `onopen` event onward — so during the setup sends both hold. -/

/-- Lifecycle phases of the connection, as observed by `connect`'s entry
checks. -/
inductive AttemptPhase where
  | idle
  | awaitingOpen
  | setupRunning
  | connected
deriving DecidableEq, Repr

/-- `this.ws !== null && this.ws.readyState === WebSocket.OPEN` in each
phase. -/
def wsIsOpen : AttemptPhase → Bool
  | .setupRunning => true
  | .connected => true
  | _ => false

/-- `this.connectionPromise !== null` in each phase. -/
def attemptInFlight : AttemptPhase → Bool
  | .awaitingOpen => true
  | .setupRunning => true
  | _ => false

/-- What a call to `connect()` does on entry. -/
inductive ConnectAction where
  | returnAlreadyConnected
  | joinSharedAttempt
  | startNewAttempt
deriving DecidableEq, Repr

/-- The entry checks of `IntifaceState.connect`, in source order. -/
def connectEntry (p : AttemptPhase) : ConnectAction :=
  if wsIsOpen p then .returnAlreadyConnected
  else if attemptInFlight p then .joinSharedAttempt
  else .startNewAttempt

/-- Phase transitions of one connect attempt: starting an attempt, the
socket opening, the setup sequence resolving or rejecting, and the socket
closing. -/
inductive PhaseStep : AttemptPhase → AttemptPhase → Prop
  | startAttempt : PhaseStep .idle .awaitingOpen
  | socketOpens : PhaseStep .awaitingOpen .setupRunning
  | setupResolves : PhaseStep .setupRunning .connected
  | openFails : PhaseStep .awaitingOpen .idle
  | socketCloses : PhaseStep .connected .idle

/-! ### Frame decoding and routing (`handleMessage`) and the close handler -/

/-- The mutable connection-level state touched by `handleMessage`,
`disconnect` and the `onclose` handler: the socket (`some b` = a socket
whose `readyState === OPEN` equals `b`), the device registry, and the ids of
the pending requests. -/
structure ClientState where
  ws : Option Bool
  devices : List (Nat × IntifaceDevice)
  pendingMessages : List Nat
deriving DecidableEq, Repr

/-- `IntifaceState.isConnected`. -/
def isConnected (s : ClientState) : Bool :=
  match s.ws with
  | some b => b
  | none => false

/-- The `content` of one decoded frame entry: the dynamic record's fields,
each absent (`undefined`) or present.  `DeviceName` and `DeviceMessages`
give the content its `DeviceMessage` shape for `DeviceAdded` frames. -/
structure Content where
  Id : Option Nat
  DeviceIndex : Option Nat
  DeviceName : Option String
  DeviceMessages : Option DeviceCmds
  Devices : Option (List DeviceMessage)
  ErrorMessage : Option String
deriving DecidableEq, Repr

/-- A content value with no fields set. -/
def emptyContent : Content :=
  { Id := none, DeviceIndex := none, DeviceName := none
    DeviceMessages := none, Devices := none, ErrorMessage := none }

/-- `content as unknown as DeviceMessage` in the `DeviceAdded` branch.
`parseDevice` dereferences `d.DeviceMessages`, so a content without that
field raises (`none` here); the wire protocol always carries `DeviceIndex`
and `DeviceName`, whose absence would not raise, so they default. -/
def contentDevice (c : Content) : Option DeviceMessage :=
  match c.DeviceMessages with
  | none => none
  | some cmds =>
    some { DeviceIndex := c.DeviceIndex.getD 0
           DeviceName := c.DeviceName.getD ""
           DeviceMessages := cmds }

/-- An observable callback effect on the pending-request table. -/
inductive PendingEffect where
  | resolved (id : Nat)
  | rejected (id : Nat) (msg : String)
deriving DecidableEq, Repr

/-- `pendingMessages.get(id)` followed by `delete` and `resolve`: unknown or
absent ids are ignored silently. -/
def resolvePending (s : ClientState) (id : Option Nat) :
    ClientState × List PendingEffect :=
  match id with
  | none => (s, [])
  | some i =>
    if s.pendingMessages.contains i then
      ({ s with pendingMessages := s.pendingMessages.filter (fun j => j != i) },
       [PendingEffect.resolved i])
    else (s, [])

/-- `pendingMessages.get(id)` followed by `delete` and `reject`: unknown or
absent ids are ignored silently. -/
def rejectPending (s : ClientState) (id : Option Nat) (msg : String) :
    ClientState × List PendingEffect :=
  match id with
  | none => (s, [])
  | some i =>
    if s.pendingMessages.contains i then
      ({ s with pendingMessages := s.pendingMessages.filter (fun j => j != i) },
       [PendingEffect.rejected i msg])
    else (s, [])

/-- The routing of one decoded `(type, content)` pair inside
`handleMessage`'s loop.  `none` models a raised exception (iterating a
missing `Devices` array, or parsing a content without `DeviceMessages`),
which the outer `try` catches. -/
def routeFrame (s : ClientState) (type : String) (c : Content) :
    Option (ClientState × List PendingEffect) :=
  if type = "DeviceAdded" then
    match contentDevice c with
    | none => none
    | some dm =>
      let device := parseDevice dm
      some ({ s with devices := mapSet s.devices device.index device }, [])
  else if type = "DeviceRemoved" then
    match c.DeviceIndex with
    | none => some (s, [])
    | some i => some ({ s with devices := mapDelete s.devices i }, [])
  else if type = "DeviceList" then
    match c.Devices with
    | none => none
    | some ds =>
      let devices' := ds.foldl
        (fun acc dm => let device := parseDevice dm; mapSet acc device.index device)
        s.devices
      resolvePending { s with devices := devices' } c.Id
  else if type = "ScanningFinished" then some (s, [])
  else if type = "Error" then
    rejectPending s c.Id (c.ErrorMessage.getD "")
  else if type = "Ok" ∨ type = "ServerInfo" then
    resolvePending s c.Id
  else some (s, [])

/-- Processing one entry of the parsed sequence:
`const [type, content] = Object.entries(msg)[0]` raises on an object with no
keys (`none`); otherwise only the first key/value pair is used. -/
def processEntry (s : ClientState) (entry : List (String × Content)) :
    Option (ClientState × List PendingEffect) :=
  match entry with
  | [] => none
  | (type, c) :: _ => routeFrame s type c

/-- The loop of `handleMessage` under its `try`: returns the final state,
the pending-request effects in order, and whether the `catch` logged a
decode failure.  When an entry raises, the effects and state changes of the
earlier entries are kept and the remaining entries are dropped. -/
def processEntries (s : ClientState) :
    List (List (String × Content)) → ClientState × List PendingEffect × Bool
  | [] => (s, [], false)
  | e :: rest =>
    match processEntry s e with
    | none => (s, [], true)
    | some (s', effs) =>
      let (s'', moreEffs, failed) := processEntries s' rest
      (s'', effs ++ moreEffs, failed)

/-- The data passed to `handleMessage`: either text that `JSON.parse`
rejects, or the parsed sequence of objects (each a list of key/value pairs
in property order). -/
inductive FrameData where
  | malformed
  | parsed (entries : List (List (String × Content)))
deriving DecidableEq, Repr

/-- `IntifaceState.handleMessage`: parse failures are caught and logged
(`true` in the last component) and leave the state untouched; otherwise the
entries are processed in order. -/
def handleMessage (s : ClientState) :
    FrameData → ClientState × List PendingEffect × Bool
  | .malformed => (s, [], true)
  | .parsed entries => processEntries s entries

/-- The `ws.onclose` handler: `this.ws = null; this.devices.clear();
this.pendingMessages.clear()`.  The second component lists the pending
requests rejected during the close — the handler rejects none. -/
def onclose (s : ClientState) : ClientState × List Nat :=
  ({ s with ws := none, devices := [], pendingMessages := [] }, [])

/-! ## Theorems -/

/-! ### Device descriptor parsing (claim C7) -/

theorem parseDevice_vibrate_eq (d : DeviceMessage) :
    (parseDevice d).capabilities.vibrate
      = specCapability ((vibrateGroup d).map (fun s => s.StepCount)) := by
  unfold parseDevice vibrateGroup specCapability
  cases h : d.DeviceMessages.ScalarCmd with
  | none => simp [h]
  | some l =>
    simp only [h, Option.map_some, Option.getD_some]
    by_cases hl : l.filter (fun s => s.ActuatorType == "Vibrate") = []
    · simp [hl]
    · simp [hl, List.length_eq_zero, bne_iff_ne]

theorem parseDevice_rotate_eq (d : DeviceMessage) :
    (parseDevice d).capabilities.rotate
      = specCapability ((rotateGroup d).map (fun r => r.StepCount)) := by
  unfold parseDevice rotateGroup specCapability
  cases h : d.DeviceMessages.RotateCmd with
  | none => simp [h]
  | some l =>
    simp only [h, Option.getD_some]
    by_cases hl : l = []
    · simp [hl]
    · simp [hl, List.length_eq_zero, bne_iff_ne]

theorem parseDevice_linear_eq (d : DeviceMessage) :
    (parseDevice d).capabilities.linear
      = specCapability ((linearGroup d).map (fun v => v.StepCount)) := by
  unfold parseDevice linearGroup specCapability
  cases h : d.DeviceMessages.LinearCmd with
  | none => simp [h]
  | some l =>
    simp only [h, Option.getD_some]
    by_cases hl : l = []
    · simp [hl]
    · simp [hl, List.length_eq_zero, bne_iff_ne]

theorem specCapability_isSome {α : Type} (g : List α) (f : α → Nat) :
    (specCapability (g.map f)).isSome ↔ g ≠ [] := by
  unfold specCapability
  by_cases hg : g = [] <;> simp [hg]

/-- C7: a parsed capability field is present iff the corresponding source
actuator group is non-empty (the vibrate group being the scalar-command
entries with actuator type `"Vibrate"`); each present capability records the
group's length as its motor count and the entries' step counts in source
order; a zero-entry capability is omitted entirely (`parseDevice` agrees
with the spec-modelled `specCapability` on every group). -/
theorem C7_parseDevice_capabilities (d : DeviceMessage) :
    ((parseDevice d).capabilities.vibrate
        = specCapability ((vibrateGroup d).map (fun s => s.StepCount)))
      ∧ ((parseDevice d).capabilities.rotate
        = specCapability ((rotateGroup d).map (fun r => r.StepCount)))
      ∧ ((parseDevice d).capabilities.linear
        = specCapability ((linearGroup d).map (fun v => v.StepCount)))
      ∧ ((parseDevice d).capabilities.vibrate.isSome ↔ vibrateGroup d ≠ [])
      ∧ ((parseDevice d).capabilities.rotate.isSome ↔ rotateGroup d ≠ [])
      ∧ ((parseDevice d).capabilities.linear.isSome ↔ linearGroup d ≠ [])
      ∧ (∀ spec, (parseDevice d).capabilities.vibrate = some spec →
          spec.motors = (vibrateGroup d).length
            ∧ spec.steps = (vibrateGroup d).map (fun s => s.StepCount))
      ∧ (∀ spec, (parseDevice d).capabilities.rotate = some spec →
          spec.motors = (rotateGroup d).length
            ∧ spec.steps = (rotateGroup d).map (fun r => r.StepCount))
      ∧ (∀ spec, (parseDevice d).capabilities.linear = some spec →
          spec.motors = (linearGroup d).length
            ∧ spec.steps = (linearGroup d).map (fun v => v.StepCount)) := by
  have hv := parseDevice_vibrate_eq d
  have hr := parseDevice_rotate_eq d
  have hl := parseDevice_linear_eq d
  refine ⟨hv, hr, hl, ?_, ?_, ?_, ?_, ?_, ?_⟩
  · rw [hv]; exact specCapability_isSome _ _
  · rw [hr]; exact specCapability_isSome _ _
  · rw [hl]; exact specCapability_isSome _ _
  · intro spec hspec
    rw [hv] at hspec
    unfold specCapability at hspec
    by_cases hg : vibrateGroup d = []
    · simp [hg] at hspec
    · simp only [List.map_eq_nil_iff, hg, if_neg] at hspec
      cases hspec
      simp
  · intro spec hspec
    rw [hr] at hspec
    unfold specCapability at hspec
    by_cases hg : rotateGroup d = []
    · simp [hg] at hspec
    · simp only [List.map_eq_nil_iff, hg, if_neg] at hspec
      cases hspec
      simp
  · intro spec hspec
    rw [hl] at hspec
    unfold specCapability at hspec
    by_cases hg : linearGroup d = []
    · simp [hg] at hspec
    · simp only [List.map_eq_nil_iff, hg, if_neg] at hspec
      cases hspec
      simp

/-- A concrete device message exercising C7: two scalar entries of which one
is a vibrator, no rotate array, an empty linear array. -/
def demoDeviceMessage : DeviceMessage :=
  { DeviceIndex := 2
    DeviceName := "demo"
    DeviceMessages :=
      { ScalarCmd := some [{ StepCount := 20, ActuatorType := "Vibrate" },
                           { StepCount := 8, ActuatorType := "Oscillate" }]
        RotateCmd := none
        LinearCmd := some [] } }

/-- C7 witness: on `demoDeviceMessage` the vibrate capability is present with
motor count 1 and steps `[20]`, while the rotate and linear capabilities are
omitted. -/
theorem C7_parseDevice_capabilities_witness :
    (parseDevice demoDeviceMessage).capabilities.vibrate
        = some { motors := 1, steps := [20] }
      ∧ ((parseDevice demoDeviceMessage).capabilities.vibrate.isSome
          ↔ vibrateGroup demoDeviceMessage ≠ [])
      ∧ (∀ spec, (parseDevice demoDeviceMessage).capabilities.vibrate = some spec →
          spec.motors = (vibrateGroup demoDeviceMessage).length
            ∧ spec.steps = (vibrateGroup demoDeviceMessage).map (fun s => s.StepCount))
      ∧ (parseDevice demoDeviceMessage).capabilities.rotate = none
      ∧ (parseDevice demoDeviceMessage).capabilities.linear = none := by
  have h := C7_parseDevice_capabilities demoDeviceMessage
  exact ⟨by decide, h.2.2.2.1, h.2.2.2.2.2.2.1, by decide, by decide⟩

/-! ### `vibrate` command construction (claim C6) -/

theorem clamp_mem_unit (s : ℚ) : 0 ≤ clamp s ∧ clamp s ≤ 1 := by
  unfold clamp
  exact ⟨le_max_left 0 _, max_le (by norm_num) (min_le_left 1 s)⟩

/-- C6: for a registered device with an `n`-motor vibrate capability,
`vibrate` sends a `ScalarCmd` with exactly one scalar per motor, indices
`0..n-1`, all actuator type `"Vibrate"`, every scalar within `[0,1]`; with
no motor argument every motor carries the clamped strength, and with a motor
argument only that index carries the clamped strength while every other
motor carries `0`. -/
theorem C6_vibrate_scalarCmd (devices : List (Nat × IntifaceDevice)) (idx : Nat)
    (dev : IntifaceDevice) (cap : MotorSpec) (strength : ℚ) (motor : Option Nat)
    (hdev : mapGet devices idx = some dev)
    (hcap : dev.capabilities.vibrate = some cap) :
    ∃ scalars : List ScalarEntry,
      vibrate (.ok ()) devices idx strength motor
          = .ok { DeviceIndex := idx, Scalars := scalars }
        ∧ scalars.length = cap.motors
        ∧ (∀ i, ∀ h : i < scalars.length,
            scalars[i].Index = i ∧ scalars[i].ActuatorType = "Vibrate"
              ∧ 0 ≤ scalars[i].Scalar ∧ scalars[i].Scalar ≤ 1)
        ∧ (motor = none →
            ∀ i, ∀ h : i < scalars.length, scalars[i].Scalar = clamp strength)
        ∧ (∀ m, motor = some m →
            (∀ h : m < scalars.length, scalars[m].Scalar = clamp strength)
              ∧ (∀ i, ∀ h : i < scalars.length, i ≠ m → scalars[i].Scalar = 0)) := by
  refine ⟨(List.range cap.motors).map (fun i =>
      { Index := i
        Scalar := if motor = none ∨ motor = some i then clamp strength else 0
        ActuatorType := "Vibrate" }), ?_, ?_, ?_, ?_, ?_⟩
  · simp [vibrate, hdev, hcap]
  · simp
  · intro i h
    have hb := clamp_mem_unit strength
    refine ⟨by simp, by simp, ?_, ?_⟩ <;>
      · simp only [List.getElem_map, List.getElem_range]
        by_cases hc : motor = none ∨ motor = some i <;>
          simp [hc, hb.1, hb.2]
  · intro hm i h
    simp [List.getElem_map, List.getElem_range, hm]
  · intro m hm
    constructor
    · intro h
      simp [List.getElem_map, List.getElem_range, hm]
    · intro i h hne
      have : ¬(motor = none ∨ motor = some i) := by
        rw [hm]
        simp
        exact fun he => hne he.symm
      simp [List.getElem_map, List.getElem_range, this]

/-- A three-motor vibrating device registered at index 0. -/
def dev3 : IntifaceDevice :=
  { index := 0, name := "demo3"
    capabilities :=
      { vibrate := some { motors := 3, steps := [20, 20, 20] }
        rotate := none, linear := none } }

/-- C6 witness: on the three-motor device, `vibrate(0, 0.5, motor = 1)`
produces exactly the scalar array `[{0,0},{1,0.5},{2,0}]`, and the general
theorem applies with its hypotheses discharged at this device. -/
theorem C6_vibrate_scalarCmd_witness :
    vibrate (.ok ()) [(0, dev3)] 0 (1 / 2) (some 1)
        = .ok { DeviceIndex := 0
                Scalars := [{ Index := 0, Scalar := 0, ActuatorType := "Vibrate" },
                            { Index := 1, Scalar := 1 / 2, ActuatorType := "Vibrate" },
                            { Index := 2, Scalar := 0, ActuatorType := "Vibrate" }] }
      ∧ ∃ scalars : List ScalarEntry,
          vibrate (.ok ()) [(0, dev3)] 0 (1 / 2) (some 1)
              = .ok { DeviceIndex := 0, Scalars := scalars }
            ∧ scalars.length = 3
            ∧ (∀ i, ∀ h : i < scalars.length,
                scalars[i].Index = i ∧ scalars[i].ActuatorType = "Vibrate"
                  ∧ 0 ≤ scalars[i].Scalar ∧ scalars[i].Scalar ≤ 1) := by
  have hclamp : clamp ((2 : ℚ)⁻¹) = (2 : ℚ)⁻¹ := by
    unfold clamp
    rw [min_eq_right (by norm_num : ((2 : ℚ)⁻¹) ≤ 1),
      max_eq_right (by norm_num : (0 : ℚ) ≤ (2 : ℚ)⁻¹)]
  constructor
  · simp [vibrate, mapGet, dev3, hclamp, List.range_succ]
  · obtain ⟨scalars, h1, h2, h3, -, -⟩ :=
      C6_vibrate_scalarCmd [(0, dev3)] 0 dev3 { motors := 3, steps := [20, 20, 20] }
        (1 / 2) (some 1) (by decide) (by decide)
    exact ⟨scalars, h1, h2, h3⟩

/-! ### `getBattery` (claim C1) -/

/-- C1 counterexample: with an empty registry, `getBattery(0)` throws
`"Device 0 not found"` to the caller — it does not resolve to a null
result, even though the battery send itself would have succeeded. -/
theorem C1_getBattery_counterexample :
    getBattery (.ok ()) [] 0 (.ok 1) = .error "Device 0 not found"
      ∧ getBattery (.ok ()) [] 0 (.ok 1) ≠ .ok none := by
  exact ⟨by rfl, by decide⟩

/-- C1 (amended): once the target device is found in the registry, any
failure of the battery send itself is swallowed and `getBattery` resolves to
a null result, while a successful reply resolves to its battery level;
absence of the device from the registry (and a failing `ensureConnected`)
still propagate as errors. -/
theorem C1_getBattery_null_on_send_failure (devices : List (Nat × IntifaceDevice))
    (idx : Nat) (dev : IntifaceDevice) (hdev : mapGet devices idx = some dev) :
    (∀ e, getBattery (.ok ()) devices idx (.error e) = .ok none)
      ∧ (∀ lvl, getBattery (.ok ()) devices idx (.ok lvl) = .ok (some lvl)) := by
  unfold getBattery
  rw [hdev]
  exact ⟨fun e => rfl, fun lvl => rfl⟩

/-- C1 witness: with the three-motor device registered at index 0, a failing
battery send resolves to `none` and a successful one to its level. -/
theorem C1_getBattery_null_on_send_failure_witness :
    getBattery (.ok ()) [(0, dev3)] 0 (.error "unsupported") = .ok none
      ∧ getBattery (.ok ()) [(0, dev3)] 0 (.ok (9 / 10)) = .ok (some (9 / 10)) := by
  have h := C1_getBattery_null_on_send_failure [(0, dev3)] 0 dev3 (by decide)
  exact ⟨h.1 "unsupported", h.2 (9 / 10)⟩

/-! ### Work-signal edge detection (claim C2) -/

/-- C2 counterexample: the sequence `[0,0,3,3,0,5,0]` from the initial state
triggers four actuation transitions, not three. -/
theorem C2_work_signal_counterexample :
    (runWorkSignals initPresence [0, 0, 3, 3, 0, 5, 0]).2.length = 4
      ∧ (runWorkSignals initPresence [0, 0, 3, 3, 0, 5, 0]).2.length ≠ 3 := by
  decide

/-- C2 (amended): the sequence `[0,0,3,3,0,5,0]` from the initial state
(`lastWorkingCount = 0`) triggers exactly four actuation transitions — a
start at index 2, a stop at index 4, a start at index 5 and a stop at
index 6 — and in general a notification whose count stays on the positive
side of zero (a magnitude-only change such as 3 to 5) triggers nothing:
transitions happen only when `count > 0` crosses. -/
theorem C2_work_signal_edges :
    (runWorkSignals initPresence [0, 0, 3, 3, 0, 5, 0]).2
        = [(2, .startVibe 0 DEFAULT_STRENGTH), (4, .stopVibe 0),
           (5, .startVibe 0 DEFAULT_STRENGTH), (6, .stopVibe 0)]
      ∧ (∀ s : PresenceState, ∀ w : Nat, 0 < w → 0 < s.lastWorkingCount →
          (onSessionStateMessage s w).2 = [])
      ∧ (∀ s : PresenceState, ∀ w : Nat, (onSessionStateMessage s w).2 ≠ [] →
          ((0 < w) ↔ ¬ 0 < s.lastWorkingCount)) := by
  refine ⟨by rfl, ?_, ?_⟩
  · intro s w hw hlast
    unfold onSessionStateMessage
    simp [hw, hlast]
  · intro s w hacts
    unfold onSessionStateMessage at hacts
    simp only at hacts
    by_cases hw : 0 < w <;> by_cases hlast : 0 < s.lastWorkingCount <;>
      simp [hw, hlast] at hacts ⊢

/-- C2 witness: a magnitude-only change from working count 3 to working
count 5 triggers no actuation. -/
theorem C2_work_signal_edges_witness :
    (onSessionStateMessage { initPresence with lastWorkingCount := 3 } 5).2 = [] := by
  exact (C2_work_signal_edges.2.1 { initPresence with lastWorkingCount := 3 } 5
    (by decide) (by decide))

/-! ### The `since`/`active` invariant (claim C5) -/

/-- The presence invariant: the activation timestamp is set exactly when the
state is active. -/
def presenceInv (s : PresenceState) : Prop :=
  s.since.isSome = s.active

theorem setState_presenceInv (now : Nat) (s : PresenceState) (a : Bool)
    (d : Nat) (st : ℚ) (h : presenceInv s) :
    presenceInv (setState now s a d st).1 := by
  unfold presenceInv at h ⊢
  unfold setState
  cases a <;> cases hA : s.active <;> simp [hA] at h ⊢
  exact h

theorem stepOp_presenceInv (now : Nat) (op : Op) (s : PresenceState)
    (h : presenceInv s) : presenceInv (stepOp now op s).1 := by
  cases op with
  | setOp a d st => exact setState_presenceInv now s a d st h
  | startOp d st => exact setState_presenceInv now s true d st h
  | toggleOp d st => exact setState_presenceInv now s (!s.active) d st h
  | restoreOp => exact setState_presenceInv now s s.active s.device s.strength h
  | workSignal w =>
    unfold presenceInv at h ⊢
    simpa [stepOp, onSessionStateMessage] using h

theorem runOpsFrom_presenceInv (ops : List (Nat × Op)) (s : PresenceState)
    (h : presenceInv s) : presenceInv (runOpsFrom s ops) := by
  induction ops generalizing s with
  | nil => exact h
  | cons p rest ih =>
    exact ih (stepOp p.1 p.2 s).1 (stepOp_presenceInv p.1 p.2 s h)

/-- C5: in every state reachable by the presence operations from the
initial state, `since` is non-null exactly when `active` is true; and
`setState` sets `since` to the current time only on an idle-to-active
transition, clears it on any transition to idle, and preserves it unchanged
when already active (so repeated `start` calls do not reset it). -/
theorem C5_since_iff_active :
    (∀ ops : List (Nat × Op), (runOps ops).since.isSome = (runOps ops).active)
      ∧ (∀ now : Nat, ∀ s : PresenceState, ∀ d : Nat, ∀ st : ℚ,
          (s.active = false → (setState now s true d st).1.since = some now)
            ∧ (setState now s false d st).1.since = none
            ∧ (s.active = true → (setState now s true d st).1.since = s.since)) := by
  constructor
  · intro ops
    exact runOpsFrom_presenceInv ops initPresence rfl
  · intro now s d st
    refine ⟨fun hA => ?_, ?_, fun hA => ?_⟩
    · simp [setState, hA]
    · simp [setState]
    · simp [setState, hA]

/-- C5 witness: starting twice (at times 5 and 7) leaves the activation
timestamp from the first start; the reachable-state invariant and each
`setState` clause hold at these concrete inputs. -/
theorem C5_since_iff_active_witness :
    (runOps [(5, .startOp 0 DEFAULT_STRENGTH), (7, .startOp 0 DEFAULT_STRENGTH)]).since
        = some 5
      ∧ ((runOps [(5, .startOp 0 DEFAULT_STRENGTH),
            (7, .startOp 0 DEFAULT_STRENGTH)]).since.isSome
          = (runOps [(5, .startOp 0 DEFAULT_STRENGTH),
              (7, .startOp 0 DEFAULT_STRENGTH)]).active)
      ∧ (initPresence.active = false →
          (setState 5 initPresence true 0 DEFAULT_STRENGTH).1.since = some 5) := by
  refine ⟨by rfl, C5_since_iff_active.1 _, (C5_since_iff_active.2 5 initPresence 0
    DEFAULT_STRENGTH).1⟩

/-! ### `restore` is the identity (claim C10) -/

/-- C10: on every presence state reachable from the initial state, `restore`
passes the current fields back into `setState`, so it leaves every presence
field unchanged and attempts no actuation call. -/
theorem C10_restore_identity (ops : List (Nat × Op)) (now : Nat) :
    restore now (runOps ops) = (runOps ops, []) := by
  have hInv : presenceInv (runOps ops) := runOpsFrom_presenceInv ops initPresence rfl
  unfold presenceInv at hInv
  rcases hs : runOps ops with ⟨a, d, st, si, l⟩
  rw [hs] at hInv
  simp only at hInv
  unfold restore setState
  cases a with
  | true => simp
  | false =>
    have hsi : si = none := by
      exact Option.not_isSome_iff_eq_none.mp (by simp [hInv])
    simp [hsi]

/-! ### The connect attempt's timeout (claim C4) -/

/-- C4 counterexample: a scenario whose socket opens at 100 ms but whose
setup sequence (handshake, device list, scan start) only finishes at
50000 ms resolves successfully at 50000 ms without any timeout failure and
without the socket being force-closed — the 10-second timer was cleared by
`onopen` and does not bound the post-open steps. -/
theorem C4_connect_timeout_counterexample :
    connectAttempt { openTime := some 100, errorTime := none, handshake := .ok ()
                     deviceList := .ok (), scanStart := .ok (), setupEndTime := 50000 }
        = (.success, 50000, false)
      ∧ 10000 < 50000 := by
  decide

/-- C4 (amended): the attempt resolves only after the scan-start step is
acknowledged or some step fails — in the open-before-10s case it settles at
the end of the setup sequence, successfully iff no step failed — while the
fixed 10-second timeout bounds only the phase before the socket opens: if
neither `open` nor `error` fires before 10 s the socket is force-closed and
the attempt fails with the timeout error, but once the socket opens the
timer is cleared and the setup steps are unbounded. -/
theorem C4_connect_resolution (sc : ConnectScenario) :
    (sc.openTime = none → sc.errorTime = none →
        connectAttempt sc = (.failure "Connection timeout", 10000, true))
      ∧ (∀ tOpen, sc.openTime = some tOpen → ¬ tOpen < 10000 → sc.errorTime = none →
          connectAttempt sc = (.failure "Connection timeout", 10000, true))
      ∧ (∀ tOpen, sc.openTime = some tOpen → tOpen < 10000 → sc.errorTime = none →
          (firstStepFailure sc = none →
              connectAttempt sc = (.success, sc.setupEndTime, false))
            ∧ (∀ e, firstStepFailure sc = some e →
              connectAttempt sc = (.failure e, sc.setupEndTime, false))) := by
  refine ⟨fun hOpen hErr => ?_, fun tOpen hOpen hLate hErr => ?_,
    fun tOpen hOpen hEarly hErr => ⟨fun hSteps => ?_, fun e hSteps => ?_⟩⟩
  · simp [connectAttempt, hOpen, hErr]
  · simp [connectAttempt, hOpen, hErr, hLate]
  · simp [connectAttempt, openCase, hOpen, hErr, hEarly, hSteps]
  · simp [connectAttempt, openCase, hOpen, hErr, hEarly, hSteps]

/-- C4 witness: a socket that never opens nor errors times out at 10 s with
a forced close, and a socket opening at 500 ms whose handshake fails settles
with the handshake's error at the end of the setup sequence. -/
theorem C4_connect_resolution_witness :
    connectAttempt { openTime := none, errorTime := none, handshake := .ok ()
                     deviceList := .ok (), scanStart := .ok (), setupEndTime := 0 }
        = (.failure "Connection timeout", 10000, true)
      ∧ connectAttempt { openTime := some 500, errorTime := none
                         handshake := .error "handshake refused"
                         deviceList := .ok (), scanStart := .ok (), setupEndTime := 700 }
        = (.failure "handshake refused", 700, false) := by
  constructor
  · exact (C4_connect_resolution _).1 rfl rfl
  · exact ((C4_connect_resolution _).2.2 500 rfl (by decide) rfl).2
      "handshake refused" rfl

/-! ### Connect coalescing (claim C8) -/

/-- C8 counterexample: the phase in which the socket has opened but the
setup sends are still running is reachable from idle (start the attempt,
then the socket opens); in it an attempt is still in flight, yet a
concurrent `connect()` hits the `readyState === OPEN` fast path and returns
immediately instead of joining the shared attempt — so a caller in this
window observes success even if the attempt later fails. -/
theorem C8_connect_coalescing_counterexample :
    PhaseStep .idle .awaitingOpen
      ∧ PhaseStep .awaitingOpen .setupRunning
      ∧ attemptInFlight .setupRunning = true
      ∧ connectEntry .setupRunning ≠ .joinSharedAttempt
      ∧ connectEntry .setupRunning = .returnAlreadyConnected := by
  exact ⟨.startAttempt, .socketOpens, rfl, by decide, rfl⟩

/-- C8 (amended): a `connect()` call finding the socket open returns
immediately; a call while an attempt is in flight and the socket is not yet
open joins the shared attempt and observes its outcome; and a new attempt
(the only action that opens a socket and performs a handshake) starts only
when no socket is open and no attempt is in flight — so at most one attempt
exists at a time, but a caller arriving after the socket opens and before
setup completes gets an immediate return rather than the shared outcome. -/
theorem C8_connect_coalescing (p : AttemptPhase) :
    (wsIsOpen p = true → connectEntry p = .returnAlreadyConnected)
      ∧ (wsIsOpen p = false → attemptInFlight p = true →
          connectEntry p = .joinSharedAttempt)
      ∧ (connectEntry p = .startNewAttempt
          ↔ (wsIsOpen p = false ∧ attemptInFlight p = false)) := by
  cases p <;> exact ⟨by decide, by decide, by decide⟩

/-- C8 witness: before the socket opens a concurrent call joins the shared
attempt; once connected a call returns immediately; from idle a call starts
the one new attempt. -/
theorem C8_connect_coalescing_witness :
    connectEntry .awaitingOpen = .joinSharedAttempt
      ∧ connectEntry .connected = .returnAlreadyConnected
      ∧ connectEntry .idle = .startNewAttempt := by
  refine ⟨(C8_connect_coalescing .awaitingOpen).2.1 (by decide) (by decide),
    (C8_connect_coalescing .connected).1 (by decide),
    (C8_connect_coalescing .idle).2.2.mpr (by decide)⟩

/-! ### The close handler (claim C9) -/

/-- C9: whenever the socket closes, the `onclose` handler empties the device
registry, clears the pending-request table without rejecting (or resolving)
any pending caller, and leaves the client disconnected. -/
theorem C9_onclose_clears (s : ClientState) :
    (onclose s).1.devices = []
      ∧ (onclose s).1.pendingMessages = []
      ∧ isConnected (onclose s).1 = false
      ∧ (onclose s).2 = [] := by
  exact ⟨rfl, rfl, rfl, rfl⟩

/-! ### Malformed frames (claim C3) -/

/-- C3 counterexample: an empty sequence is processed without any decode
failure being reported (third component `false`), and in a batch whose
second entry is an object with no keys, the well-formed `Ok` entry for
pending id 6 that follows it is never processed — id 6 stays pending — so
well-formed entries after a malformed one in the same batch are dropped. -/
theorem C3_decode_counterexample :
    handleMessage { ws := some true, devices := [], pendingMessages := [5, 6] }
        (.parsed [])
      = ({ ws := some true, devices := [], pendingMessages := [5, 6] }, [], false)
      ∧ handleMessage { ws := some true, devices := [], pendingMessages := [5, 6] }
          (.parsed [[("Ok", { emptyContent with Id := some 5 })], [],
            [("Ok", { emptyContent with Id := some 6 })]])
        = ({ ws := some true, devices := [], pendingMessages := [6] },
           [PendingEffect.resolved 5], true) := by
  constructor
  · rfl
  · rfl

/-- C3 (amended): text that is not valid JSON is reported as a decode
failure and the frame is dropped whole, without crashing and without
touching the state or any pending caller; an entry that raises during
processing (such as an object with no keys) is caught by the same handler,
which logs the failure and drops only the remaining entries — the state
changes and callback effects of the entries before it are kept; an empty
sequence is a silent no-op with no failure reported; and a multi-key object
is not a decode failure — it is processed through its first key only. -/
theorem C3_decode_failure_handling (s : ClientState) :
    handleMessage s .malformed = (s, [], true)
      ∧ handleMessage s (.parsed []) = (s, [], false)
      ∧ (∀ k c rest entries,
          handleMessage s (.parsed (((k, c) :: rest) :: entries))
            = handleMessage s (.parsed ([(k, c)] :: entries)))
      ∧ (∀ entries, handleMessage s (.parsed ([] :: entries)) = (s, [], true))
      ∧ (∀ e s' effs entries, processEntry s e = some (s', effs) →
          handleMessage s (.parsed (e :: entries))
            = ((handleMessage s' (.parsed entries)).1,
               effs ++ (handleMessage s' (.parsed entries)).2.1,
               (handleMessage s' (.parsed entries)).2.2)) := by
  refine ⟨rfl, rfl, fun k c rest entries => rfl, fun entries => rfl,
    fun e s' effs entries he => ?_⟩
  show processEntries s (e :: entries) = _
  unfold processEntries
  rw [he]
  show (match processEntries s' entries with
    | (s'', moreEffs, failed) => (s'', effs ++ moreEffs, failed))
      = ((processEntries s' entries).1, effs ++ (processEntries s' entries).2.1,
         (processEntries s' entries).2.2)
  rcases processEntries s' entries with ⟨s'', moreEffs, failed⟩
  rfl

/-- C3 witness: resolving pending id 5 succeeds before a keyless object
aborts the rest of the batch, via the general prefix rule applied at that
entry. -/
theorem C3_decode_failure_handling_witness :
    handleMessage { ws := some true, devices := [], pendingMessages := [5] }
        (.parsed [[("Ok", { emptyContent with Id := some 5 })], []])
      = ({ ws := some true, devices := [], pendingMessages := [] },
         [PendingEffect.resolved 5], true) := by
  have h := (C3_decode_failure_handling
      { ws := some true, devices := [], pendingMessages := [5] }).2.2.2.2
      [("Ok", { emptyContent with Id := some 5 })]
      { ws := some true, devices := [], pendingMessages := [] }
      [PendingEffect.resolved 5] [[]] (by rfl)
  rw [h]
  rfl
